import Mathlib

/-!
# Verification of the Resource Matching & Recommendation Engine

Shallow embedding of the matching/recommendation core of the
Srujana_Hackathon_Health-AI repository:

* `ml_models/blood_bank_system.py` — blood-type compatibility table,
  donor matching (`find_compatible_donors`), nearby-facility search
  (`find_nearby_hospitals`) and availability aggregation
  (`check_blood_availability`);
* `ml_models/hospital_recommender.py` — hospital scoring and
  recommendation (`recommend_hospitals`, `_calculate_hospital_score`,
  `_calculate_urgency_score`), city/state resolution, and doctor ranking
  (`get_doctor_recommendations`).

Modelling conventions:

* Python numbers (floats and ints flowing into float arithmetic) are
  modelled as `ℚ`; integer fields compared as integers stay `ℤ`.
* The haversine distance `calculate_distance` uses transcendental
  functions, so the distance function is passed to each operation as an
  explicit parameter `distFn : ℚ → ℚ → ℚ → ℚ → ℚ`; every theorem
  quantifies over it.
* The process-global random generator consulted by
  `find_compatible_donors` is modelled as an oracle `rng : ℕ → ℚ × Bool`
  giving, for the donor at index `i` of the scan, the value a
  `random.uniform(5, radius)` call would return and the outcome of the
  `random.random() < 0.4` Bernoulli test.  The Python code has no seed
  parameter; the oracle stands for the hidden global RNG state.
* Record fields never read by the embedded operations (names, phone
  numbers, genders, …) are omitted from the structures.
* `round(x, 2)` on floats is modelled as exact decimal rounding
  (`round2`); no claim depends on behaviour at half-hundredth ties.
-/

set_option allowUnsafeReducibility true in
attribute [semireducible] Rat.mul Rat.add Rat.inv Rat.sub Rat.ofScientific

namespace HealthAI

/-- Python's `str.lower()` (ASCII lowering, as in all the city names the
code compares). -/
def strToLower (s : String) : String := ⟨s.data.map Char.toLower⟩

/-- `round(x, 2)`: report a value rounded to two decimals.  (Python
rounds float ties to even; the embedded values never sit on a
half-hundredth tie, so decimal rounding is faithful here.) -/
def round2 (q : ℚ) : ℚ := ((Int.floor (q * 100 + 1/2) : ℤ) : ℚ) / 100

/-! ## Blood bank system: compatibility table and city gazetteer -/

/-- `self.blood_types` from `BloodBankSystem.__init__`. -/
def blood_types : List String := ["A+", "A-", "B+", "B-", "AB+", "AB-", "O+", "O-"]

/-- `self.blood_compatibility` from `BloodBankSystem.__init__`:
recipient type ↦ acceptable donor types. -/
def blood_compatibility : List (String × List String) :=
  [ ("A+", ["A+", "A-", "O+", "O-"]),
    ("A-", ["A-", "O-"]),
    ("B+", ["B+", "B-", "O+", "O-"]),
    ("B-", ["B-", "O-"]),
    ("AB+", ["A+", "A-", "B+", "B-", "AB+", "AB-", "O+", "O-"]),
    ("AB-", ["A-", "B-", "AB-", "O-"]),
    ("O+", ["O+", "O-"]),
    ("O-", ["O-"]) ]

/-- `self.blood_compatibility.get(required_blood_type, [])`. -/
def compatibleTypes (requiredBloodType : String) : List String :=
  (blood_compatibility.lookup requiredBloodType).getD []

/-- One entry of the `self.indian_cities` gazetteer. -/
structure CityData where
  state : String
  lat : ℚ
  lon : ℚ
deriving DecidableEq

/-- `self.indian_cities` from `BloodBankSystem.__init__`. -/
def indian_cities : List (String × CityData) :=
  [ ("mumbai", ⟨"Maharashtra", 19.0760, 72.8777⟩),
    ("delhi", ⟨"Delhi", 28.7041, 77.1025⟩),
    ("bangalore", ⟨"Karnataka", 12.9716, 77.5946⟩),
    ("hyderabad", ⟨"Telangana", 17.3850, 78.4867⟩),
    ("chennai", ⟨"Tamil Nadu", 13.0827, 80.2707⟩),
    ("kolkata", ⟨"West Bengal", 22.5726, 88.3639⟩),
    ("pune", ⟨"Maharashtra", 18.5204, 73.8567⟩),
    ("ahmedabad", ⟨"Gujarat", 23.0225, 72.5714⟩),
    ("jaipur", ⟨"Rajasthan", 26.9124, 75.7873⟩),
    ("lucknow", ⟨"Uttar Pradesh", 26.8467, 80.9462⟩) ]

/-- Requester coordinate resolution in `find_compatible_donors` /
`check_blood_availability`: city looked up case-insensitively in
`indian_cities`, defaulting to Delhi when absent. -/
def bbResolveCoords (userCity : String) : ℚ × ℚ :=
  match indian_cities.lookup (strToLower userCity) with
  | some cd => (cd.lat, cd.lon)
  | none => (28.7041, 77.1025)

/-! ## Donors -/

/-- The `last_donation` field: a parseable date (known days ago), an
unparseable string, or `None`.  `find_compatible_donors` maps the latter
two to a default of 30 days ago. -/
inductive LastDonation where
  | date (daysAgo : ℤ)
  | unparseable
  | missing
deriving DecidableEq

/-- `(datetime.now() - last_donation).days` with the fallback
`datetime.now() - timedelta(days=30)` for unparseable/missing values. -/
def lastDonationDays : LastDonation → ℤ
  | .date d => d
  | .unparseable => 30
  | .missing => 30

/-- A donor record (fields read by the engine). -/
structure Donor where
  id : String
  age : ℤ
  blood_type : String
  city : String
  is_available : Bool
  last_donation : LastDonation
  weight : ℚ
deriving DecidableEq

/-- A donor as returned by `find_compatible_donors`: the record copy
plus the `distance_km` and `last_donation_days` keys added to it. -/
structure DonorInfo where
  donor : Donor
  distance_km : ℚ
  last_donation_days : ℤ
deriving DecidableEq

/-- Eligibility-and-compatibility test shared by both scan tiers of
`find_compatible_donors` (blood type, availability, age, weight). -/
def donorEligible (compat : List String) (d : Donor) : Prop :=
  d.blood_type ∈ compat ∧ d.is_available = true ∧
    18 ≤ d.age ∧ d.age ≤ 65 ∧ 50 ≤ d.weight

instance (compat : List String) (d : Donor) : Decidable (donorEligible compat d) := by
  unfold donorEligible; infer_instance

/-- Local tier of `find_compatible_donors`: donors of the requester's
city, at most 3 (`local_donors_added < 3`), distance 0. -/
def localTier (donors : List Donor) (compat : List String) (userCityLower : String) :
    List DonorInfo :=
  donors.foldl
    (fun acc d =>
      if donorEligible compat d ∧ strToLower d.city = userCityLower ∧ acc.length < 3 then
        acc ++ [⟨d, 0, lastDonationDays d.last_donation⟩]
      else acc)
    []

/-- Regional tier of `find_compatible_donors`: donors of other cities.
Known cities get the computed distance, unknown cities the
`random.uniform(5, radius_km)` draw `(rng i).1`; a donor is kept when
`distance ≤ radius_km` or when `distance ≤ 2·radius_km` and the
`random.random() < 0.4` draw `(rng i).2` succeeds. -/
def regionalTier (donors : List Donor) (compat : List String) (userCityLower : String)
    (radiusKm userLat userLon : ℚ) (distFn : ℚ → ℚ → ℚ → ℚ → ℚ) (rng : ℕ → ℚ × Bool) :
    List DonorInfo :=
  donors.enum.foldl
    (fun acc p =>
      let i := p.1
      let d := p.2
      if donorEligible compat d ∧ strToLower d.city ≠ userCityLower then
        let distance : ℚ :=
          match indian_cities.lookup (strToLower d.city) with
          | some cd => distFn userLat userLon cd.lat cd.lon
          | none => (rng i).1
        if distance ≤ radiusKm ∨ (distance ≤ radiusKm * 2 ∧ (rng i).2 = true) then
          acc ++ [⟨d, round2 distance, lastDonationDays d.last_donation⟩]
        else acc
      else acc)
    []

/-- The sort key of `compatible_donors.sort(key=lambda x:
(x['distance_km'], -x['last_donation_days']))`: ascending distance,
ties broken by descending days since last donation. -/
def donorKeyLE (a b : DonorInfo) : Prop :=
  a.distance_km < b.distance_km ∨
    (a.distance_km = b.distance_km ∧ b.last_donation_days ≤ a.last_donation_days)

instance : DecidableRel donorKeyLE := by
  unfold DecidableRel donorKeyLE; infer_instance

instance : IsTotal DonorInfo donorKeyLE := by
  constructor
  intro a b
  rcases lt_trichotomy a.distance_km b.distance_km with h | h | h
  · exact Or.inl (Or.inl h)
  · rcases le_total b.last_donation_days a.last_donation_days with h2 | h2
    · exact Or.inl (Or.inr ⟨h, h2⟩)
    · exact Or.inr (Or.inr ⟨h.symm, h2⟩)
  · exact Or.inr (Or.inl h)

instance : IsTrans DonorInfo donorKeyLE := by
  constructor
  intro a b c hab hbc
  rcases hab with hab | ⟨hab, hab2⟩ <;> rcases hbc with hbc | ⟨hbc, hbc2⟩
  · exact Or.inl (hab.trans hbc)
  · exact Or.inl (hbc ▸ hab)
  · exact Or.inl (hab ▸ hbc)
  · exact Or.inr ⟨hab.trans hbc, hbc2.trans hab2⟩

/-- `BloodBankSystem.find_compatible_donors(required_blood_type,
user_city, radius_km)`: local tier, then regional tier, sorted by
`(distance_km, -last_donation_days)`, truncated to 30. -/
def find_compatible_donors (donors : List Donor) (requiredBloodType userCity : String)
    (radiusKm : ℚ) (distFn : ℚ → ℚ → ℚ → ℚ → ℚ) (rng : ℕ → ℚ × Bool) : List DonorInfo :=
  let compat := compatibleTypes requiredBloodType
  let userCityLower := strToLower userCity
  let userLat := (bbResolveCoords userCity).1
  let userLon := (bbResolveCoords userCity).2
  let compatible_donors :=
    localTier donors compat userCityLower ++
      regionalTier donors compat userCityLower radiusKm userLat userLon distFn rng
  (List.insertionSort donorKeyLE compatible_donors).take 30

/-! ## Facilities and blood availability -/

/-- A facility record of the blood bank system (fields read by
`find_nearby_hospitals` / `check_blood_availability`). -/
structure BBHospital where
  id : String
  name : String
  city : String
  state : String
  latitude : ℚ
  longitude : ℚ
  contact : String
  emergency_contact : String
deriving DecidableEq

/-- A facility as produced by `find_nearby_hospitals`: the record copy
plus `distance_km` and the facility's `blood_inventory` mapping. -/
structure NearbyHospital where
  base : BBHospital
  distance_km : ℚ
  blood_inventory : List (String × ℤ)
deriving DecidableEq

/-- Distance order used by `nearby_hospitals.sort(key=lambda x:
x['distance_km'])`. -/
def nearbyLE (a b : NearbyHospital) : Prop := a.distance_km ≤ b.distance_km

instance : DecidableRel nearbyLE := by
  unfold DecidableRel nearbyLE; infer_instance

instance : IsTotal NearbyHospital nearbyLE :=
  ⟨fun a b => le_total a.distance_km b.distance_km⟩

instance : IsTrans NearbyHospital nearbyLE :=
  ⟨fun _ _ _ hab hbc => le_trans hab hbc⟩

/-- `BloodBankSystem.find_nearby_hospitals(user_lat, user_lon,
radius_km)`: facilities within the radius, with rounded distance and
attached inventory, sorted ascending by distance. -/
def find_nearby_hospitals (hospitals : List BBHospital)
    (inventory : String → List (String × ℤ)) (distFn : ℚ → ℚ → ℚ → ℚ → ℚ)
    (userLat userLon radiusKm : ℚ) : List NearbyHospital :=
  let nearby := hospitals.foldl
    (fun acc h =>
      let distance := distFn userLat userLon h.latitude h.longitude
      if distance ≤ radiusKm then
        acc ++ [⟨h, round2 distance, inventory h.id⟩]
      else acc)
    []
  List.insertionSort nearbyLE nearby

/-- A per-facility record of the availability report
(`hospital_info` in `check_blood_availability`). -/
structure HospitalWithBlood where
  hospital_id : String
  hospital_name : String
  city : String
  state : String
  distance_km : ℚ
  blood_units_available : ℤ
  contact : String
  emergency_contact : String
deriving DecidableEq

/-- An entry of the `emergency_contacts` list. -/
structure EmergencyContact where
  hospital_name : String
  emergency_contact : String
  distance_km : ℚ
deriving DecidableEq

/-- The report returned by `check_blood_availability`. -/
structure Availability where
  requested_blood_type : String
  user_city : String
  search_radius_km : ℚ
  hospitals_with_blood : List HospitalWithBlood
  total_units_available : ℤ
  nearest_hospital : Option HospitalWithBlood
  emergency_contacts : List EmergencyContact
deriving DecidableEq

/-- The `hospital_info` record built for a facility with positive
stock. -/
def mkHospitalWithBlood (h : NearbyHospital) (bloodUnits : ℤ) : HospitalWithBlood :=
  ⟨h.base.id, h.base.name, h.base.city, h.base.state, h.distance_km, bloodUnits,
    h.base.contact, h.base.emergency_contact⟩

/-- The body of the accumulation loop of `check_blood_availability`:
for a facility with positive stock, append its record, add its units,
and keep the first such facility as nearest. -/
def availStep (bloodType : String) (acc : Availability) (h : NearbyHospital) : Availability :=
  let bloodUnits := (h.blood_inventory.lookup bloodType).getD 0
  if bloodUnits > 0 then
    let info := mkHospitalWithBlood h bloodUnits
    { acc with
      hospitals_with_blood := acc.hospitals_with_blood ++ [info],
      total_units_available := acc.total_units_available + bloodUnits,
      nearest_hospital :=
        match acc.nearest_hospital with
        | none => some info
        | some x => some x }
  else acc

/-- `BloodBankSystem.check_blood_availability(blood_type, user_city,
radius_km)`. -/
def check_blood_availability (hospitals : List BBHospital)
    (inventory : String → List (String × ℤ)) (distFn : ℚ → ℚ → ℚ → ℚ → ℚ)
    (bloodType userCity : String) (radiusKm : ℚ) : Availability :=
  let userLat := (bbResolveCoords userCity).1
  let userLon := (bbResolveCoords userCity).2
  let nearby := find_nearby_hospitals hospitals inventory distFn userLat userLon radiusKm
  let init : Availability :=
    ⟨bloodType, userCity, radiusKm, [], 0, none, []⟩
  let withStock := nearby.foldl (availStep bloodType) init
  { withStock with
    emergency_contacts :=
      (nearby.take 5).map fun h =>
        ⟨h.base.name, h.base.emergency_contact, h.distance_km⟩ }

/-! ## Hospital recommender -/

/-- The per-specialty data stored in `hospital['specialties']`
(fields read by the scorer; the procedure/equipment lists are never
read by the embedded operations and are omitted). -/
structure SpecData where
  rating : ℚ
  doctors_count : ℤ
  wait_time_days : ℚ
  success_rate : ℚ
deriving DecidableEq

/-- A facility record of `HospitalRecommender` (fields read by the
scoring and recommendation code). -/
structure HRHospital where
  id : String
  name : String
  city : String
  state : String
  latitude : ℚ
  longitude : ℚ
  overall_rating : ℚ
  specialties : List (String × SpecData)
  equipment_quality : ℚ
  doctor_expertise : ℚ
  infrastructure : ℚ
  patient_satisfaction : ℚ
  wait_time_minutes : ℚ
  insurance_accepted : Bool
  emergency_services : Bool
  icu_beds : ℤ
deriving DecidableEq

/-- `HospitalRecommender._get_city_coordinates(city)`: fixed map,
defaulting to Delhi (`city_coords['delhi']`). -/
def hr_city_coords : List (String × (ℚ × ℚ)) :=
  [ ("delhi", (28.7041, 77.1025)),
    ("mumbai", (19.0760, 72.8777)),
    ("bangalore", (12.9716, 77.5946)),
    ("chennai", (13.0827, 77.2707)),
    ("kolkata", (22.5726, 88.3639)),
    ("hyderabad", (17.3850, 78.4867)),
    ("pune", (18.5204, 73.8567)),
    ("ahmedabad", (23.0225, 72.5714)) ]

/-- `HospitalRecommender._get_city_coordinates`. -/
def hrGetCityCoordinates (city : String) : ℚ × ℚ :=
  (hr_city_coords.lookup (strToLower city)).getD (28.7041, 77.1025)

/-- The `city_state_map` of `HospitalRecommender._get_city_state`. -/
def hr_city_state_map : List (String × String) :=
  [ ("delhi", "Delhi"),
    ("mumbai", "Maharashtra"),
    ("bangalore", "Karnataka"),
    ("chennai", "Tamil Nadu"),
    ("kolkata", "West Bengal"),
    ("hyderabad", "Telangana"),
    ("pune", "Maharashtra"),
    ("ahmedabad", "Gujarat") ]

/-- `HospitalRecommender._get_city_state(city)`: fixed map, defaulting
to `'Delhi'`. -/
def hrGetCityState (city : String) : String :=
  (hr_city_state_map.lookup (strToLower city)).getD "Delhi"

/-- The state names `_create_hospital_database` draws facility states
from (the `major_cities` list); `_get_city_state` only returns values
of this list as well. -/
def canonicalStates : List String :=
  ["Delhi", "Maharashtra", "Karnataka", "Tamil Nadu", "West Bengal", "Telangana", "Gujarat"]

/-- `HospitalRecommender._calculate_urgency_score(hospital, urgency)`. -/
def urgencyScore (h : HRHospital) (urgency : String) : ℚ :=
  if urgency = "critical" then
    if h.emergency_services = true ∧ h.icu_beds > 10 then 1 else 0.5
  else if urgency = "high" then
    if h.emergency_services = true then 0.8 else 0.6
  else if urgency = "medium" then
    if h.wait_time_minutes < 60 then 0.7 else 0.5
  else 0.6

/-- `HospitalRecommender._check_urgency_match(hospital, urgency)`. -/
def checkUrgencyMatch (h : HRHospital) (urgency : String) : Bool :=
  if urgency = "critical" then
    decide (h.emergency_services = true ∧ h.icu_beds > 5)
  else if urgency = "high" then
    decide (h.emergency_services = true ∨ h.wait_time_minutes < 90)
  else true

/-- `HospitalRecommender._calculate_hospital_score(hospital, specialty,
urgency, user_lat, user_lon, medical_issue)`, with the haversine
distance of the facility to the requester passed in as `distance`. -/
def hospitalScore (h : HRHospital) (specialty urgency : String) (distance : ℚ) : ℚ :=
  let specialtyPart : ℚ :=
    match h.specialties.lookup specialty with
    | some sd =>
        (sd.rating * 0.5 + ((sd.doctors_count : ℚ) / 10) * 0.3 +
          (sd.success_rate / 100) * 0.4 + (1 - sd.wait_time_days / 30) * 0.1) * 0.5
    | none => 0.05
  let basePart : ℚ :=
    (h.overall_rating * 0.3 + h.equipment_quality * 0.25 + h.doctor_expertise * 0.3 +
      h.infrastructure * 0.1 + h.patient_satisfaction * 0.05) * 0.25
  let urgencyPart : ℚ := urgencyScore h urgency * 0.15
  let distanceScore : ℚ :=
    if distance < 50 then 1
    else if distance < 100 then 0.8
    else max 0 (1 - distance / 500)
  let emergencyBonus : ℚ :=
    if (urgency = "critical" ∨ urgency = "high") ∧ h.emergency_services = true then 0.05
    else 0
  specialtyPart + basePart + urgencyPart + distanceScore * 0.1 + emergencyBonus

/-- A facility as returned by `recommend_hospitals`: record copy plus
the added keys.  The `recommendation_reason` string is
presentation-only and not modelled. -/
structure ScoredHospital where
  base : HRHospital
  recommendation_score : ℚ
  distance_km : ℚ
  specialty_match : Bool
  urgency_match : Bool
  specialty_rating : ℚ
  specialty_doctors : ℤ
  specialty_success_rate : ℚ
  specialty_wait_time : ℚ
  rank : ℕ
deriving DecidableEq

/-- Descending score order of `scored_hospitals.sort(key=lambda x:
x['recommendation_score'], reverse=True)`. -/
def scoreGE (a b : ScoredHospital) : Prop :=
  b.recommendation_score ≤ a.recommendation_score

instance : DecidableRel scoreGE := by
  unfold DecidableRel scoreGE; infer_instance

instance : IsTotal ScoredHospital scoreGE :=
  ⟨fun a b => (le_total b.recommendation_score a.recommendation_score).imp id id⟩

instance : IsTrans ScoredHospital scoreGE :=
  ⟨fun _ _ _ hab hbc => le_trans hbc hab⟩

/-- The `hospital_info` record built by `recommend_hospitals` for one
candidate (before ranks are assigned). -/
def mkScoredHospital (h : HRHospital) (specialty : String) (urgency : String)
    (score distance : ℚ) : ScoredHospital :=
  match h.specialties.lookup specialty with
  | some sd =>
      ⟨h, score, round2 distance, true, checkUrgencyMatch h urgency,
        sd.rating, sd.doctors_count, sd.success_rate, sd.wait_time_days, 0⟩
  | none =>
      ⟨h, score, round2 distance, false, checkUrgencyMatch h urgency, 0, 0, 0, 999, 0⟩

/-- `for i, hospital in enumerate(recommendations): hospital['rank'] = i+1`:
assign 1-based ranks down the final list. -/
def assignRanks : ℕ → List ScoredHospital → List ScoredHospital
  | _, [] => []
  | n, h :: t => { h with rank := n } :: assignRanks (n + 1) t

/-- `HospitalRecommender.recommend_hospitals(medical_issue, user_city,
urgency_level, max_hospitals)`.  The external specialty classifier is a
collaborator: its output is the parameter `predictedSpecialty`. -/
def recommend_hospitals (hospitals : List HRHospital) (predictedSpecialty : String)
    (userCity urgencyLevel : String) (maxHospitals : ℕ)
    (distFn : ℚ → ℚ → ℚ → ℚ → ℚ) : List ScoredHospital :=
  let userLat := (hrGetCityCoordinates userCity).1
  let userLon := (hrGetCityCoordinates userCity).2
  let userState := hrGetCityState userCity
  let state_hospitals := hospitals.filter fun h => strToLower h.state = strToLower userState
  if state_hospitals = [] then []
  else
    let scored := state_hospitals.foldl
      (fun acc h =>
        let distance := distFn userLat userLon h.latitude h.longitude
        let score := hospitalScore h predictedSpecialty urgencyLevel distance
        if score > 0 then
          acc ++ [mkScoredHospital h predictedSpecialty urgencyLevel score distance]
        else acc)
      []
    let sorted := List.insertionSort scoreGE scored
    assignRanks 1 (sorted.take maxHospitals)

/-! ## Doctor ranking -/

/-- A provider record of `HospitalRecommender` (fields read by
`get_doctor_recommendations`).  `quality_score` is absent (`none`)
until the ranking code writes it into the record. -/
structure Doctor where
  id : String
  specialty : String
  hospital_id : String
  rating : ℚ
  experience_years : ℚ
  success_rate : ℚ
  procedures_performed : ℚ
  quality_score : Option ℚ
deriving DecidableEq

/-- The quality score `get_doctor_recommendations` computes and stores
into each filtered record. -/
def doctorQuality (d : Doctor) : ℚ :=
  d.rating * 0.4 + (d.experience_years / 40) * 0.3 +
    (d.success_rate / 100) * 0.2 + (d.procedures_performed / 1000) * 0.1

/-- The combined specialty filter and (optional) hospital filter of
`get_doctor_recommendations`. -/
def doctorMatches (specialty : String) (hospitalId : Option String) (d : Doctor) : Bool :=
  d.specialty == specialty &&
    match hospitalId with
    | some hid => d.hospital_id == hid
    | none => true

/-- Descending `(quality_score, rating, experience_years)` order of
`doctors.sort(key=..., reverse=True)`. -/
def doctorGE (a b : Doctor) : Prop :=
  b.quality_score.getD 0 < a.quality_score.getD 0 ∨
    (b.quality_score.getD 0 = a.quality_score.getD 0 ∧
      (b.rating < a.rating ∨
        (b.rating = a.rating ∧ b.experience_years ≤ a.experience_years)))

instance : DecidableRel doctorGE := by
  unfold DecidableRel doctorGE; infer_instance

/-- `HospitalRecommender.get_doctor_recommendations(specialty,
hospital_id)`.  The Python loop writes `doctor['quality_score']` into
the records of the shared `self.doctors` collection (the filtered list
holds references, not copies), so the embedding returns the top-10
result together with the updated collection. -/
def get_doctor_recommendations (doctors : List Doctor) (specialty : String)
    (hospitalId : Option String) : List Doctor × List Doctor :=
  let updated := doctors.map fun d =>
    if doctorMatches specialty hospitalId d then
      { d with quality_score := some (doctorQuality d) }
    else d
  let selected := updated.filter (doctorMatches specialty hospitalId)
  let sorted := List.insertionSort doctorGE selected
  (sorted.take 10, updated)

/-! ## Helper lemmas -/

/-- Every record the local tier emits passed the eligibility test, and
carries the (possibly defaulted) days since last donation of its
donor. -/
lemma props_of_mem_localTier {donors : List Donor} {compat : List String}
    {city : String} {x : DonorInfo} (hx : x ∈ localTier donors compat city) :
    donorEligible compat x.donor ∧
      x.last_donation_days = lastDonationDays x.donor.last_donation := by
  have aux : ∀ (l : List Donor) (acc : List DonorInfo),
      x ∈ l.foldl
        (fun acc d =>
          if donorEligible compat d ∧ strToLower d.city = city ∧ acc.length < 3 then
            acc ++ [⟨d, 0, lastDonationDays d.last_donation⟩]
          else acc) acc →
      x ∈ acc ∨ donorEligible compat x.donor ∧
        x.last_donation_days = lastDonationDays x.donor.last_donation := by
    intro l
    induction l with
    | nil => intro acc h; exact Or.inl h
    | cons d l ih =>
      intro acc h
      rcases ih _ h with h' | h'
      · by_cases hc : donorEligible compat d ∧ strToLower d.city = city ∧ acc.length < 3
        · simp only [if_pos hc] at h'
          rcases List.mem_append.mp h' with h'' | h''
          · exact Or.inl h''
          · right
            have : x = ⟨d, 0, lastDonationDays d.last_donation⟩ := by simpa using h''
            rw [this]
            exact ⟨hc.1, rfl⟩
        · simp only [if_neg hc] at h'
          exact Or.inl h'
      · exact Or.inr h'
  rcases aux donors [] hx with h | h
  · simp at h
  · exact h

/-- Every record the regional tier emits passed the eligibility test,
and carries the (possibly defaulted) days since last donation of its
donor. -/
lemma props_of_mem_regionalTier {donors : List Donor} {compat : List String}
    {city : String} {radiusKm userLat userLon : ℚ} {distFn : ℚ → ℚ → ℚ → ℚ → ℚ}
    {rng : ℕ → ℚ × Bool} {x : DonorInfo}
    (hx : x ∈ regionalTier donors compat city radiusKm userLat userLon distFn rng) :
    donorEligible compat x.donor ∧
      x.last_donation_days = lastDonationDays x.donor.last_donation := by
  have aux : ∀ (l : List (ℕ × Donor)) (acc : List DonorInfo),
      x ∈ l.foldl
        (fun acc p =>
          let i := p.1
          let d := p.2
          if donorEligible compat d ∧ strToLower d.city ≠ city then
            let distance : ℚ :=
              match indian_cities.lookup (strToLower d.city) with
              | some cd => distFn userLat userLon cd.lat cd.lon
              | none => (rng i).1
            if distance ≤ radiusKm ∨ (distance ≤ radiusKm * 2 ∧ (rng i).2 = true) then
              acc ++ [⟨d, round2 distance, lastDonationDays d.last_donation⟩]
            else acc
          else acc) acc →
      x ∈ acc ∨ donorEligible compat x.donor ∧
        x.last_donation_days = lastDonationDays x.donor.last_donation := by
    intro l
    induction l with
    | nil => intro acc h; exact Or.inl h
    | cons p l ih =>
      intro acc h
      rcases ih _ h with h' | h'
      · by_cases hc : donorEligible compat p.2 ∧ strToLower p.2.city ≠ city
        · simp only [if_pos hc] at h'
          set distance : ℚ :=
            match indian_cities.lookup (strToLower p.2.city) with
            | some cd => distFn userLat userLon cd.lat cd.lon
            | none => (rng p.1).1 with hdist
          by_cases hc2 : distance ≤ radiusKm ∨ (distance ≤ radiusKm * 2 ∧ (rng p.1).2 = true)
          · rw [if_pos hc2] at h'
            rcases List.mem_append.mp h' with h'' | h''
            · exact Or.inl h''
            · right
              have : x = ⟨p.2, round2 distance, lastDonationDays p.2.last_donation⟩ := by
                simpa using h''
              rw [this]
              exact ⟨hc.1, rfl⟩
          · rw [if_neg hc2] at h'
            exact Or.inl h'
        · simp only [if_neg hc] at h'
          exact Or.inl h'
      · exact Or.inr h'
  rcases aux donors.enum [] hx with h | h
  · simp at h
  · exact h

/-- Every returned donor record passed the eligibility test of its
tier and carries its donor's (possibly defaulted) days since last
donation. -/
lemma props_of_mem_find_compatible_donors {donors : List Donor}
    {bt city : String} {radiusKm : ℚ} {distFn : ℚ → ℚ → ℚ → ℚ → ℚ}
    {rng : ℕ → ℚ × Bool} {x : DonorInfo}
    (hx : x ∈ find_compatible_donors donors bt city radiusKm distFn rng) :
    donorEligible (compatibleTypes bt) x.donor ∧
      x.last_donation_days = lastDonationDays x.donor.last_donation := by
  unfold find_compatible_donors at hx
  have hx' := List.take_subset 30 _ hx
  rw [List.mem_insertionSort] at hx'
  rcases List.mem_append.mp hx' with h | h
  · exact props_of_mem_localTier h
  · exact props_of_mem_regionalTier h

/-! ## Claims -/

/-- C1: every donor record returned by `find_compatible_donors`
satisfies `18 ≤ age ≤ 65`, `weight ≥ 50`, `is_available = true`, and
its blood type belongs to `compatibleTypes requestedType`; no
ineligible donor is ever returned, for any donor collection, arguments,
distance function and random stream. -/
theorem C1_no_ineligible_donor_returned (donors : List Donor) (bt city : String)
    (radiusKm : ℚ) (distFn : ℚ → ℚ → ℚ → ℚ → ℚ) (rng : ℕ → ℚ × Bool) (x : DonorInfo)
    (hx : x ∈ find_compatible_donors donors bt city radiusKm distFn rng) :
    18 ≤ x.donor.age ∧ x.donor.age ≤ 65 ∧ 50 ≤ x.donor.weight ∧
      x.donor.is_available = true ∧ x.donor.blood_type ∈ compatibleTypes bt := by
  obtain ⟨⟨h1, h2, h3, h4, h5⟩, _⟩ := props_of_mem_find_compatible_donors hx
  exact ⟨h3, h4, h5, h2, h1⟩

/-- A donor used to instantiate C1 concretely. -/
def c1Donor : Donor :=
  ⟨"donor_1", 30, "O-", "Delhi", true, .date 100, 70⟩

/-- Witness for C1: on a concrete one-donor collection the returned
record is the donor, and the theorem applies to it. -/
theorem C1_witness :
    (⟨c1Donor, 0, 100⟩ : DonorInfo) ∈
        find_compatible_donors [c1Donor] "O+" "Delhi" 200 (fun _ _ _ _ => 10) (fun _ => (10, true)) ∧
      18 ≤ c1Donor.age ∧ c1Donor.age ≤ 65 ∧ 50 ≤ c1Donor.weight ∧
        c1Donor.is_available = true ∧ c1Donor.blood_type ∈ compatibleTypes "O+" := by
  refine ⟨by decide, ?_⟩
  have h := C1_no_ineligible_donor_returned [c1Donor] "O+" "Delhi" 200
    (fun _ _ _ _ => 10) (fun _ => (10, true)) ⟨c1Donor, 0, 100⟩ (by decide)
  exact h

/-- C2: in the fixed compatibility table, O− is an acceptable donor
type for every one of the 8 recipient blood types, and the acceptable
donor types of AB+ are exactly the full list of 8 blood types. -/
theorem C2_compatibility_table :
    (∀ bt ∈ blood_types, "O-" ∈ compatibleTypes bt) ∧
      compatibleTypes "AB+" = blood_types := by
  decide

/-- Witness for C2: the universal part instantiated at the concrete
recipient type A+. -/
theorem C2_witness :
    "A+" ∈ blood_types ∧ "O-" ∈ compatibleTypes "A+" :=
  ⟨by decide, C2_compatibility_table.1 "A+" (by decide)⟩

/-- C4: the list returned by `find_compatible_donors` is sorted
ascending by reported distance with exact-distance ties broken by
descending days-since-last-donation (`donorKeyLE`), has at most 30
entries, every donor with distance 0 appears before every donor with
positive distance, and the days value of every entry is its donor's
days since last donation with missing/unparseable dates defaulted to
30 (`lastDonationDays`). -/
theorem C4_sorted_capped_zeros_first (donors : List Donor) (bt city : String)
    (radiusKm : ℚ) (distFn : ℚ → ℚ → ℚ → ℚ → ℚ) (rng : ℕ → ℚ × Bool) :
    (find_compatible_donors donors bt city radiusKm distFn rng).Pairwise donorKeyLE ∧
      (find_compatible_donors donors bt city radiusKm distFn rng).length ≤ 30 ∧
      (find_compatible_donors donors bt city radiusKm distFn rng).Pairwise
        (fun a b => 0 < a.distance_km → 0 < b.distance_km) ∧
      ∀ x ∈ find_compatible_donors donors bt city radiusKm distFn rng,
        x.last_donation_days = lastDonationDays x.donor.last_donation := by
  have hsorted : (find_compatible_donors donors bt city radiusKm distFn rng).Pairwise
      donorKeyLE := by
    unfold find_compatible_donors
    exact List.Pairwise.sublist (List.take_sublist 30 _)
      (List.sorted_insertionSort donorKeyLE _)
  refine ⟨hsorted, ?_, ?_, ?_⟩
  · unfold find_compatible_donors
    exact List.length_take_le 30 _
  · refine hsorted.imp ?_
    intro a b hab h0
    rcases hab with hab | ⟨hab, _⟩
    · exact h0.trans hab
    · exact hab ▸ h0
  · intro x hx
    exact (props_of_mem_find_compatible_donors hx).2

/-- A donor used to instantiate C4 concretely (missing
`last_donation`, so its days default to 30). -/
def c4Donor : Donor :=
  ⟨"donor_2", 25, "A-", "Mumbai", true, .missing, 60⟩

/-- Witness for C4: the days-defaulting part applied at a concrete
call whose single returned record has days 30. -/
theorem C4_witness :
    (⟨c4Donor, 0, 30⟩ : DonorInfo) ∈
        find_compatible_donors [c4Donor] "A+" "Mumbai" 200 (fun _ _ _ _ => 10) (fun _ => (10, true)) ∧
      (⟨c4Donor, 0, 30⟩ : DonorInfo).last_donation_days =
        lastDonationDays c4Donor.last_donation :=
  ⟨by decide,
    (C4_sorted_capped_zeros_first [c4Donor] "A+" "Mumbai" 200
      (fun _ _ _ _ => 10) (fun _ => (10, true))).2.2.2 ⟨c4Donor, 0, 30⟩ (by decide)⟩

/-- Every facility record emitted by `find_nearby_hospitals` is a
facility of the collection, carries its own inventory, and passed the
radius filter (its raw distance is at most `radiusKm`). -/
lemma props_of_mem_find_nearby_hospitals {hospitals : List BBHospital}
    {inventory : String → List (String × ℤ)} {distFn : ℚ → ℚ → ℚ → ℚ → ℚ}
    {userLat userLon radiusKm : ℚ} {x : NearbyHospital}
    (hx : x ∈ find_nearby_hospitals hospitals inventory distFn userLat userLon radiusKm) :
    x.base ∈ hospitals ∧ x.blood_inventory = inventory x.base.id ∧
      distFn userLat userLon x.base.latitude x.base.longitude ≤ radiusKm := by
  unfold find_nearby_hospitals at hx
  rw [List.mem_insertionSort] at hx
  have aux : ∀ (l : List BBHospital) (acc : List NearbyHospital),
      x ∈ l.foldl
        (fun acc h =>
          let distance := distFn userLat userLon h.latitude h.longitude
          if distance ≤ radiusKm then
            acc ++ [⟨h, round2 distance, inventory h.id⟩]
          else acc) acc →
      x ∈ acc ∨ x.base ∈ l ∧ x.blood_inventory = inventory x.base.id ∧
        distFn userLat userLon x.base.latitude x.base.longitude ≤ radiusKm := by
    intro l
    induction l with
    | nil => intro acc h; exact Or.inl h
    | cons b l ih =>
      intro acc h
      rcases ih _ h with h' | h'
      · dsimp only at h'
        by_cases hc : distFn userLat userLon b.latitude b.longitude ≤ radiusKm
        · rw [if_pos hc] at h'
          rcases List.mem_append.mp h' with h'' | h''
          · exact Or.inl h''
          · right
            have hx'' : x = ⟨b, round2 (distFn userLat userLon b.latitude b.longitude),
                inventory b.id⟩ := by simpa using h''
            rw [hx'']
            exact ⟨List.mem_cons_self b l, rfl, hc⟩
        · rw [if_neg hc] at h'
          exact Or.inl h'
      · exact Or.inr ⟨List.mem_cons_of_mem b h'.1, h'.2.1, h'.2.2⟩
  rcases aux hospitals [] hx with h | h
  · simp at h
  · exact h

/-- The accumulation loop of `check_blood_availability` leaves the
report unchanged when no scanned facility has positive stock of the
requested type. -/
lemma foldl_stock_eq_of_zero {bt : String} :
    ∀ (l : List NearbyHospital) (acc : Availability),
      (∀ h ∈ l, ((h.blood_inventory.lookup bt).getD 0 : ℤ) ≤ 0) →
      l.foldl (availStep bt) acc = acc := by
  intro l
  induction l with
  | nil => intro acc _; rfl
  | cons h l ih =>
    intro acc hz
    have h0 : ¬ ((h.blood_inventory.lookup bt).getD 0 : ℤ) > 0 :=
      not_lt.mpr (hz h (List.mem_cons_self h l))
    rw [List.foldl_cons]
    have hstep : availStep bt acc h = acc := by
      unfold availStep
      dsimp only
      rw [if_neg h0]
    rw [hstep]
    exact ih acc fun h' hh' => hz h' (List.mem_cons_of_mem h hh')

/-- C5: when no facility within the radius has positive stock of the
requested blood type, `check_blood_availability` reports 0 total units,
no stocked facility, no nearest facility, and still emits the (distance
sorted) emergency-contact list of the first 5 nearby facilities; the
call returns a report rather than raising an error. -/
theorem C5_zero_stock_report (hospitals : List BBHospital)
    (inventory : String → List (String × ℤ)) (distFn : ℚ → ℚ → ℚ → ℚ → ℚ)
    (bloodType userCity : String) (radiusKm : ℚ)
    (hzero : ∀ hb ∈ hospitals,
      distFn (bbResolveCoords userCity).1 (bbResolveCoords userCity).2
          hb.latitude hb.longitude ≤ radiusKm →
        (((inventory hb.id).lookup bloodType).getD 0 : ℤ) ≤ 0) :
    (check_blood_availability hospitals inventory distFn bloodType userCity
        radiusKm).total_units_available = 0 ∧
      (check_blood_availability hospitals inventory distFn bloodType userCity
        radiusKm).hospitals_with_blood = [] ∧
      (check_blood_availability hospitals inventory distFn bloodType userCity
        radiusKm).nearest_hospital = none ∧
      (check_blood_availability hospitals inventory distFn bloodType userCity
        radiusKm).emergency_contacts =
        ((find_nearby_hospitals hospitals inventory distFn (bbResolveCoords userCity).1
            (bbResolveCoords userCity).2 radiusKm).take 5).map
          (fun h => ⟨h.base.name, h.base.emergency_contact, h.distance_km⟩) ∧
      (check_blood_availability hospitals inventory distFn bloodType userCity
        radiusKm).emergency_contacts.length ≤ 5 ∧
      (check_blood_availability hospitals inventory distFn bloodType userCity
        radiusKm).emergency_contacts.Pairwise
        (fun a b => a.distance_km ≤ b.distance_km) := by
  have hnearby : ∀ h ∈ find_nearby_hospitals hospitals inventory distFn
      (bbResolveCoords userCity).1 (bbResolveCoords userCity).2 radiusKm,
      ((h.blood_inventory.lookup bloodType).getD 0 : ℤ) ≤ 0 := by
    intro h hh
    obtain ⟨hmem, hinv, hdist⟩ := props_of_mem_find_nearby_hospitals hh
    rw [hinv]
    exact hzero h.base hmem hdist
  have hrep : check_blood_availability hospitals inventory distFn bloodType userCity radiusKm =
      { requested_blood_type := bloodType, user_city := userCity,
        search_radius_km := radiusKm, hospitals_with_blood := [],
        total_units_available := 0, nearest_hospital := none,
        emergency_contacts :=
          ((find_nearby_hospitals hospitals inventory distFn (bbResolveCoords userCity).1
              (bbResolveCoords userCity).2 radiusKm).take 5).map
            (fun h => ⟨h.base.name, h.base.emergency_contact, h.distance_km⟩) } := by
    unfold check_blood_availability
    dsimp only
    rw [foldl_stock_eq_of_zero _ _ hnearby]
  refine ⟨by rw [hrep], by rw [hrep], by rw [hrep], by rw [hrep], ?_, ?_⟩
  · rw [hrep]
    simp only [List.length_map]
    exact (List.length_take_le 5 _)
  · rw [hrep]
    dsimp only
    rw [List.pairwise_map]
    refine List.Pairwise.sublist (List.take_sublist 5 _) ?_
    have hs : (find_nearby_hospitals hospitals inventory distFn (bbResolveCoords userCity).1
        (bbResolveCoords userCity).2 radiusKm).Pairwise nearbyLE := by
      unfold find_nearby_hospitals
      exact List.sorted_insertionSort nearbyLE _
    exact hs.imp fun hab => hab

/-- A facility used to instantiate C5 concretely. -/
def c5Hospital : BBHospital :=
  ⟨"hosp_mumbai_1", "Apollo Hospitals - Mumbai", "Mumbai", "Maharashtra",
    19.1, 72.9, "+91-1", "+91-2"⟩

/-- Witness for C5: a one-facility collection whose single facility is
within the radius and has O+ stock 0 satisfies the hypothesis
(discharged by evaluation), and the theorem applies. -/
theorem C5_witness :
    (check_blood_availability [c5Hospital] (fun _ => [("O+", (0 : ℤ))])
        (fun _ _ _ _ => 1) "O+" "Mumbai" 50).total_units_available = 0 ∧
      (check_blood_availability [c5Hospital] (fun _ => [("O+", (0 : ℤ))])
        (fun _ _ _ _ => 1) "O+" "Mumbai" 50).hospitals_with_blood = [] ∧
      (check_blood_availability [c5Hospital] (fun _ => [("O+", (0 : ℤ))])
        (fun _ _ _ _ => 1) "O+" "Mumbai" 50).nearest_hospital = none := by
  obtain ⟨h1, h2, h3, _⟩ := C5_zero_stock_report [c5Hospital] (fun _ => [("O+", (0 : ℤ))])
    (fun _ _ _ _ => 1) "O+" "Mumbai" 50 (by decide)
  exact ⟨h1, h2, h3⟩

/-- `_get_city_state` only ever returns a state name of the fixed
canonical list (a map value or the `'Delhi'` default). -/
lemma hrGetCityState_mem_canonical (city : String) :
    hrGetCityState city ∈ canonicalStates := by
  unfold hrGetCityState hr_city_state_map
  simp only [List.lookup]
  repeat' split
  all_goals decide

/-- ASCII lowering is injective on the canonical state names. -/
lemma canonical_strToLower_inj :
    ∀ s1 ∈ canonicalStates, ∀ s2 ∈ canonicalStates,
      strToLower s1 = strToLower s2 → s1 = s2 := by
  decide

/-- `mkScoredHospital` copies the facility record. -/
lemma mkScoredHospital_base (h : HRHospital) (specialty urgency : String)
    (score distance : ℚ) :
    (mkScoredHospital h specialty urgency score distance).base = h := by
  unfold mkScoredHospital
  cases h.specialties.lookup specialty <;> rfl

/-- Rank assignment only rewrites the `rank` field: every element of
the output copies the facility data of an element of the input. -/
lemma base_of_mem_assignRanks {x : ScoredHospital} :
    ∀ (n : ℕ) (l : List ScoredHospital), x ∈ assignRanks n l →
      ∃ y ∈ l, x.base = y.base := by
  intro n l
  induction l generalizing n with
  | nil => intro h; simp [assignRanks] at h
  | cons y t ih =>
    intro h
    rcases List.mem_cons.mp h with h' | h'
    · exact ⟨y, List.mem_cons_self y t, by rw [h']⟩
    · obtain ⟨z, hz, hxz⟩ := ih (n + 1) h'
      exact ⟨z, List.mem_cons_of_mem y hz, hxz⟩

/-- Every element of the candidate-scoring loop's output copies a
facility of the scanned (region-filtered) collection. -/
lemma base_mem_of_mem_scored {specialty urgency : String}
    {userLat userLon : ℚ} {distFn : ℚ → ℚ → ℚ → ℚ → ℚ} {x : ScoredHospital} :
    ∀ (l : List HRHospital) (acc : List ScoredHospital),
      x ∈ l.foldl
        (fun acc h =>
          let distance := distFn userLat userLon h.latitude h.longitude
          let score := hospitalScore h specialty urgency distance
          if score > 0 then
            acc ++ [mkScoredHospital h specialty urgency score distance]
          else acc) acc →
      x ∈ acc ∨ x.base ∈ l := by
  intro l
  induction l with
  | nil => intro acc h; exact Or.inl h
  | cons b l ih =>
    intro acc h
    rcases ih _ h with h' | h'
    · dsimp only at h'
      by_cases hc : hospitalScore b specialty urgency
          (distFn userLat userLon b.latitude b.longitude) > 0
      · rw [if_pos hc] at h'
        rcases List.mem_append.mp h' with h'' | h''
        · exact Or.inl h''
        · right
          have hx : x = mkScoredHospital b specialty urgency
              (hospitalScore b specialty urgency
                (distFn userLat userLon b.latitude b.longitude))
              (distFn userLat userLon b.latitude b.longitude) := by
            simpa using h''
          rw [hx, mkScoredHospital_base]
          exact List.mem_cons_self b l
      · rw [if_neg hc] at h'
        exact Or.inl h'
    · exact Or.inr (List.mem_cons_of_mem b h')

/-- Every facility returned by `recommend_hospitals` survived the
region filter: its state lowercases to the resolved requester state. -/
lemma state_filter_of_mem_recommend_hospitals {hospitals : List HRHospital}
    {specialty userCity urgencyLevel : String} {maxHospitals : ℕ}
    {distFn : ℚ → ℚ → ℚ → ℚ → ℚ} {sh : ScoredHospital}
    (hsh : sh ∈ recommend_hospitals hospitals specialty userCity urgencyLevel
      maxHospitals distFn) :
    sh.base ∈ hospitals ∧ strToLower sh.base.state = strToLower (hrGetCityState userCity) := by
  unfold recommend_hospitals at hsh
  dsimp only at hsh
  by_cases hempty :
      hospitals.filter (fun h => strToLower h.state = strToLower (hrGetCityState userCity)) = []
  · rw [if_pos hempty] at hsh
    simp at hsh
  · rw [if_neg hempty] at hsh
    obtain ⟨y, hy, hbase⟩ := base_of_mem_assignRanks _ _ hsh
    have hy' := List.take_subset maxHospitals _ hy
    rw [List.mem_insertionSort] at hy'
    rcases base_mem_of_mem_scored _ _ hy' with h0 | h0
    · simp at h0
    · have := List.mem_filter.mp h0
      rw [hbase]
      exact ⟨this.1, by simpa using this.2⟩

/-- C3: assuming every facility's state is one of the canonical region
names the system uses (as `_create_hospital_database` guarantees),
every facility returned by `recommend_hospitals` has exactly the state
resolved for the requester city, and if no facility of the collection
lies in that state the result is the empty list. -/
theorem C3_same_region_only (hospitals : List HRHospital)
    (specialty userCity urgencyLevel : String) (maxHospitals : ℕ)
    (distFn : ℚ → ℚ → ℚ → ℚ → ℚ)
    (hcanon : ∀ h ∈ hospitals, h.state ∈ canonicalStates) :
    (∀ sh ∈ recommend_hospitals hospitals specialty userCity urgencyLevel
        maxHospitals distFn, sh.base.state = hrGetCityState userCity) ∧
      ((∀ h ∈ hospitals, h.state ≠ hrGetCityState userCity) →
        recommend_hospitals hospitals specialty userCity urgencyLevel
          maxHospitals distFn = []) := by
  constructor
  · intro sh hsh
    obtain ⟨hmem, hlow⟩ := state_filter_of_mem_recommend_hospitals hsh
    exact canonical_strToLower_inj sh.base.state (hcanon sh.base hmem)
      (hrGetCityState userCity) (hrGetCityState_mem_canonical userCity) hlow
  · intro hnone
    have hfilter :
        hospitals.filter
          (fun h => strToLower h.state = strToLower (hrGetCityState userCity)) = [] := by
      rw [List.filter_eq_nil_iff]
      intro h hmem
      simp only [decide_eq_true_eq]
      intro hlow
      exact hnone h hmem
        (canonical_strToLower_inj h.state (hcanon h hmem)
          (hrGetCityState userCity) (hrGetCityState_mem_canonical userCity) hlow)
    unfold recommend_hospitals
    dsimp only
    rw [if_pos hfilter]

/-- A facility used to instantiate C3 concretely. -/
def c3Hospital : HRHospital :=
  ⟨"hospital_1_0", "Apollo Hospitals - Mumbai", "Mumbai", "Maharashtra",
    19.1, 72.9, 4.5, [], 4.0, 4.0, 4.0, 4.0, 30, true, true, 20⟩

/-- Witness for C3: a Maharashtra facility is never recommended for a
Delhi requester — the concrete instance of the empty-region part, with
both hypotheses discharged by evaluation. -/
theorem C3_witness :
    recommend_hospitals [c3Hospital] "cardiology" "Delhi" "high" 10
      (fun _ _ _ _ => 1) = [] :=
  (C3_same_region_only [c3Hospital] "cardiology" "Delhi" "high" 10
    (fun _ _ _ _ => 1) (by decide)).2 (by decide)

/-- A facility with emergency services and 15 ICU beds, used for the
C6 scenario. -/
def c6Hospital15 : HRHospital :=
  ⟨"hospital_0_0", "AIIMS - Delhi", "Delhi", "Delhi",
    28.7, 77.1, 4.5, [], 4.0, 4.0, 4.0, 4.0, 30, true, true, 15⟩

/-- The same facility with 60 ICU beds instead. -/
def c6Hospital60 : HRHospital :=
  { c6Hospital15 with icu_beds := 60 }

/-- Counterexample for C6: for two otherwise-identical facilities with
`icu_beds` 15 and 60, the ICU threshold of the critical-urgency score
is 10, so both clear it and their urgency sub-scores are equal — the
60-bed facility does not score strictly higher. -/
theorem C6_counterexample :
    c6Hospital60 = { c6Hospital15 with icu_beds := 60 } ∧
      c6Hospital15.icu_beds = 15 ∧ c6Hospital60.icu_beds = 60 ∧
      urgencyScore c6Hospital60 "critical" = urgencyScore c6Hospital15 "critical" ∧
      ¬ urgencyScore c6Hospital15 "critical" < urgencyScore c6Hospital60 "critical" := by
  refine ⟨rfl, rfl, rfl, ?_, ?_⟩
  · simp [urgencyScore, c6Hospital15, c6Hospital60]
  · simp [urgencyScore, c6Hospital15, c6Hospital60]

/-- C6 (amended): under critical urgency, a facility with emergency
services whose `icu_beds` exceeds 10 receives a strictly higher urgency
sub-score (1.0) than the same facility with `icu_beds` at most 10
(0.5); 15 vs 60 both exceed the threshold, so the claim's strictness
requires the two values to straddle 10. -/
theorem C6_amended_icu_threshold (h : HRHospital) (n : ℤ)
    (hes : h.emergency_services = true) (hhigh : 10 < h.icu_beds) (hlow : n ≤ 10) :
    urgencyScore { h with icu_beds := n } "critical" < urgencyScore h "critical" := by
  have h1 : urgencyScore h "critical" = 1 := by
    unfold urgencyScore
    rw [if_pos rfl, if_pos ⟨hes, hhigh⟩]
  have h2 : urgencyScore { h with icu_beds := n } "critical" = 0.5 := by
    unfold urgencyScore
    rw [if_pos rfl, if_neg]
    dsimp only
    rintro ⟨-, hgt⟩
    exact absurd hlow (not_le.mpr hgt)
  rw [h1, h2]
  norm_num

/-- Witness for C6 (amended): the concrete 60- vs 5-bed instance. -/
theorem C6_witness :
    c6Hospital60.emergency_services = true ∧ 10 < c6Hospital60.icu_beds ∧ (5 : ℤ) ≤ 10 ∧
      urgencyScore { c6Hospital60 with icu_beds := 5 } "critical" <
        urgencyScore c6Hospital60 "critical" :=
  ⟨rfl, by decide, by decide,
    C6_amended_icu_threshold c6Hospital60 5 rfl (by decide) (by decide)⟩

/-- The mutation of one specialty entry's `success_rate` (all other
data unchanged). -/
def updSuccessRate (key : String) (r : ℚ) (l : List (String × SpecData)) :
    List (String × SpecData) :=
  l.map fun p => if p.1 = key then (p.1, { p.2 with success_rate := r }) else p

/-- Looking up after `updSuccessRate`: the updated entry for `key`, any
other entry unchanged. -/
lemma lookup_updSuccessRate (key : String) (r : ℚ) (l : List (String × SpecData))
    (k : String) :
    (updSuccessRate key r l).lookup k =
      if k = key then (l.lookup k).map (fun sd => { sd with success_rate := r })
      else l.lookup k := by
  induction l with
  | nil => simp [updSuccessRate]
  | cons p t ih =>
    obtain ⟨a, b⟩ := p
    have htail : (updSuccessRate key r ((a, b) :: t)) =
        (if a = key then (a, { b with success_rate := r }) else (a, b)) ::
          updSuccessRate key r t := by
      simp [updSuccessRate]
    rw [htail]
    by_cases hak : a = key
    · rw [if_pos hak]
      by_cases hka : k = a
      · subst hka
        rw [List.lookup_cons_self, if_pos hak, List.lookup_cons_self]
        rfl
      · rw [List.lookup_cons, List.lookup_cons, beq_false_of_ne hka]
        dsimp only
        exact ih
    · rw [if_neg hak]
      by_cases hka : k = a
      · subst hka
        have hkey : ¬ k = key := hak
        rw [List.lookup_cons_self, if_neg hkey, List.lookup_cons_self]
      · rw [List.lookup_cons, List.lookup_cons, beq_false_of_ne hka]
        dsimp only
        exact ih

/-- C7: raising the `success_rate` of any one specialty entry of a
facility — every other field, the urgency level, and the requester
distance held fixed — never decreases the composite recommendation
score. -/
theorem C7_score_monotone_in_success_rate (h : HRHospital)
    (specialty urgency key : String) (distance r' : ℚ)
    (hincr : (((h.specialties.lookup key).map SpecData.success_rate).getD r') ≤ r') :
    hospitalScore h specialty urgency distance ≤
      hospitalScore { h with specialties := updSuccessRate key r' h.specialties }
        specialty urgency distance := by
  have hu : urgencyScore { h with specialties := updSuccessRate key r' h.specialties } urgency
      = urgencyScore h urgency := rfl
  unfold hospitalScore
  dsimp only
  rw [hu, lookup_updSuccessRate]
  by_cases hk : specialty = key
  · rw [if_pos hk, hk]
    cases hl : h.specialties.lookup key with
    | none =>
      simp
    | some sd =>
      rw [hl] at hincr
      have hincr2 : sd.success_rate ≤ r' := by simpa using hincr
      have key_ineq : (sd.rating * 0.5 + ((sd.doctors_count : ℚ) / 10) * 0.3 +
            (sd.success_rate / 100) * 0.4 + (1 - sd.wait_time_days / 30) * 0.1) * 0.5 ≤
          (sd.rating * 0.5 + ((sd.doctors_count : ℚ) / 10) * 0.3 +
            (r' / 100) * 0.4 + (1 - sd.wait_time_days / 30) * 0.1) * 0.5 := by
        linarith
      repeat' apply add_le_add_right
      exact key_ineq
  · rw [if_neg hk]

/-- A specialty-data record used to instantiate C7 concretely. -/
def c7SpecData : SpecData := ⟨4, 5, 10, 90⟩

/-- A facility offering cardiology, used to instantiate C7. -/
def c7Hospital : HRHospital :=
  ⟨"hospital_0_1", "Fortis Healthcare - Delhi", "Delhi", "Delhi",
    28.7, 77.1, 4, [("cardiology", c7SpecData)], 4, 4, 4, 4, 30, true, true, 20⟩

/-- Witness for C7: raising the cardiology success rate of a concrete
facility from 90 to 95 does not lower its score. -/
theorem C7_witness :
    hospitalScore c7Hospital "cardiology" "critical" 10 ≤
      hospitalScore
        { c7Hospital with specialties := updSuccessRate "cardiology" 95 c7Hospital.specialties }
        "cardiology" "critical" 10 :=
  C7_score_monotone_in_success_rate c7Hospital "cardiology" "critical" "cardiology" 10 95
    (by decide)

/-- Counterexample for C8: the claim requires the default-locality
fallback to be signalled by a flag in the result metadata.  The code's
resolver returns bare coordinates: for the unknown locality "Atlantis"
(absent from the gazetteer) the result is byte-for-byte identical to
resolving the genuine city "Delhi", so no function of the result — no
flag — can tell the fallback apart from a real Delhi lookup. -/
theorem C8_counterexample :
    hr_city_coords.lookup (strToLower "Atlantis") = none ∧
      hr_city_coords.lookup (strToLower "Delhi") = some (28.7041, 77.1025) ∧
      hrGetCityCoordinates "Atlantis" = hrGetCityCoordinates "Delhi" ∧
      ¬ ∃ f : ℚ × ℚ → Bool, f (hrGetCityCoordinates "Atlantis") = true ∧
          f (hrGetCityCoordinates "Delhi") = false := by
  refine ⟨rfl, rfl, rfl, ?_⟩
  rintro ⟨f, h1, h2⟩
  have heq : f (hrGetCityCoordinates "Atlantis") = f (hrGetCityCoordinates "Delhi") := rfl
  rw [h1, h2] at heq
  exact Bool.noConfusion heq

/-- C8 (amended): for every locality absent from the gazetteers, both
resolvers return the Delhi default (coordinates, and state `"Delhi"` in
the recommender) instead of failing — but the fallback is silent: the
result equals that of resolving "delhi" itself, with no flag in any
result metadata. -/
theorem C8_amended_silent_delhi_fallback (city : String)
    (hbb : indian_cities.lookup (strToLower city) = none)
    (hhr : hr_city_coords.lookup (strToLower city) = none)
    (hhs : hr_city_state_map.lookup (strToLower city) = none) :
    bbResolveCoords city = (28.7041, 77.1025) ∧
      hrGetCityCoordinates city = (28.7041, 77.1025) ∧
      hrGetCityState city = "Delhi" ∧
      bbResolveCoords city = bbResolveCoords "Delhi" ∧
      hrGetCityCoordinates city = hrGetCityCoordinates "Delhi" := by
  unfold bbResolveCoords hrGetCityCoordinates hrGetCityState
  rw [hbb, hhr, hhs]
  exact ⟨rfl, rfl, rfl, rfl, rfl⟩

/-- Witness for C8 (amended): the unknown locality "Atlantis". -/
theorem C8_witness :
    bbResolveCoords "Atlantis" = (28.7041, 77.1025) ∧
      hrGetCityCoordinates "Atlantis" = (28.7041, 77.1025) ∧
      hrGetCityState "Atlantis" = "Delhi" ∧
      bbResolveCoords "Atlantis" = bbResolveCoords "Delhi" ∧
      hrGetCityCoordinates "Atlantis" = hrGetCityCoordinates "Delhi" :=
  C8_amended_silent_delhi_fallback "Atlantis" rfl rfl rfl

/-- A donor whose city is known but beyond the search radius, used for
the C9 counterexample. -/
def c9Donor : Donor :=
  ⟨"donor_9", 30, "O-", "Mumbai", true, .date 10, 70⟩

/-- Counterexample for C9: `find_compatible_donors` consults the
process-global random generator — modelled as the `rng` stream, not a
parameter of the Python call — so two calls with the same donor
collection and the same arguments return different lists when the
hidden generator state differs: here the Bernoulli draw for a donor at
1.5× the radius admits the donor under one stream and rejects it under
the other.  No seed can be injected: the Python signature
`find_compatible_donors(required_blood_type, user_city, radius_km)` has
no seed argument. -/
theorem C9_counterexample :
    find_compatible_donors [c9Donor] "O+" "Delhi" 100 (fun _ _ _ _ => 150)
        (fun _ => (0, true)) ≠
      find_compatible_donors [c9Donor] "O+" "Delhi" 100 (fun _ _ _ _ => 150)
        (fun _ => (0, false)) := by
  decide

/-- The regional tier ignores the random stream when every donor's city
is in the gazetteer and within the radius: no uniform draw is taken and
the Bernoulli draw is short-circuited. -/
lemma regionalTier_rng_independent {compat : List String} {cityLower : String}
    {radiusKm userLat userLon : ℚ} {distFn : ℚ → ℚ → ℚ → ℚ → ℚ}
    (rng1 rng2 : ℕ → ℚ × Bool) :
    ∀ (donors : List Donor),
      (∀ d ∈ donors, ∃ cd, indian_cities.lookup (strToLower d.city) = some cd ∧
        distFn userLat userLon cd.lat cd.lon ≤ radiusKm) →
      regionalTier donors compat cityLower radiusKm userLat userLon distFn rng1 =
        regionalTier donors compat cityLower radiusKm userLat userLon distFn rng2 := by
  intro donors hknown
  unfold regionalTier
  have aux : ∀ (l : List (ℕ × Donor)) (acc : List DonorInfo),
      (∀ p ∈ l, ∃ cd, indian_cities.lookup (strToLower (p : ℕ × Donor).2.city) = some cd ∧
        distFn userLat userLon cd.lat cd.lon ≤ radiusKm) →
      l.foldl
        (fun acc p =>
          let i := p.1
          let d := p.2
          if donorEligible compat d ∧ strToLower d.city ≠ cityLower then
            let distance : ℚ :=
              match indian_cities.lookup (strToLower d.city) with
              | some cd => distFn userLat userLon cd.lat cd.lon
              | none => (rng1 i).1
            if distance ≤ radiusKm ∨ (distance ≤ radiusKm * 2 ∧ (rng1 i).2 = true) then
              acc ++ [⟨d, round2 distance, lastDonationDays d.last_donation⟩]
            else acc
          else acc) acc =
      l.foldl
        (fun acc p =>
          let i := p.1
          let d := p.2
          if donorEligible compat d ∧ strToLower d.city ≠ cityLower then
            let distance : ℚ :=
              match indian_cities.lookup (strToLower d.city) with
              | some cd => distFn userLat userLon cd.lat cd.lon
              | none => (rng2 i).1
            if distance ≤ radiusKm ∨ (distance ≤ radiusKm * 2 ∧ (rng2 i).2 = true) then
              acc ++ [⟨d, round2 distance, lastDonationDays d.last_donation⟩]
            else acc
          else acc) acc := by
    intro l
    induction l with
    | nil => intro acc _; rfl
    | cons p t ih =>
      intro acc hk
      rw [List.foldl_cons, List.foldl_cons]
      obtain ⟨cd, hcd, hle⟩ := hk p (List.mem_cons_self p t)
      have hstep :
          (if donorEligible compat p.2 ∧ strToLower p.2.city ≠ cityLower then
            if (match indian_cities.lookup (strToLower p.2.city) with
                | some cd => distFn userLat userLon cd.lat cd.lon
                | none => (rng1 p.1).1) ≤ radiusKm ∨
                ((match indian_cities.lookup (strToLower p.2.city) with
                  | some cd => distFn userLat userLon cd.lat cd.lon
                  | none => (rng1 p.1).1) ≤ radiusKm * 2 ∧ (rng1 p.1).2 = true) then
              acc ++ [⟨p.2, round2 (match indian_cities.lookup (strToLower p.2.city) with
                | some cd => distFn userLat userLon cd.lat cd.lon
                | none => (rng1 p.1).1), lastDonationDays p.2.last_donation⟩]
            else acc
          else acc) =
          (if donorEligible compat p.2 ∧ strToLower p.2.city ≠ cityLower then
            if (match indian_cities.lookup (strToLower p.2.city) with
                | some cd => distFn userLat userLon cd.lat cd.lon
                | none => (rng2 p.1).1) ≤ radiusKm ∨
                ((match indian_cities.lookup (strToLower p.2.city) with
                  | some cd => distFn userLat userLon cd.lat cd.lon
                  | none => (rng2 p.1).1) ≤ radiusKm * 2 ∧ (rng2 p.1).2 = true) then
              acc ++ [⟨p.2, round2 (match indian_cities.lookup (strToLower p.2.city) with
                | some cd => distFn userLat userLon cd.lat cd.lon
                | none => (rng2 p.1).1), lastDonationDays p.2.last_donation⟩]
            else acc
          else acc) := by
        by_cases he : donorEligible compat p.2 ∧ strToLower p.2.city ≠ cityLower
        · rw [if_pos he, if_pos he, hcd]
          rw [if_pos (Or.inl hle), if_pos (Or.inl hle)]
        · rw [if_neg he, if_neg he]
      rw [hstep]
      exact ih _ fun q hq => hk q (List.mem_cons_of_mem p hq)
  exact aux _ [] fun p hp =>
    hknown p.2 (List.getElem?_mem (List.mem_enum_iff_getElem?.mp hp))

/-- C9 (amended): the random draws come from the process-global
generator and no seed parameter exists, so equal arguments alone do not
guarantee equal results (see the counterexample).  What does hold: when
every donor's locality is in the gazetteer and lies within `radiusKm`
of the requester, no draw is consulted, and two calls with the same
collection and arguments return identical lists whatever the generator
state. -/
theorem C9_amended_deterministic_without_draws (donors : List Donor)
    (bt city : String) (radiusKm : ℚ) (distFn : ℚ → ℚ → ℚ → ℚ → ℚ)
    (rng1 rng2 : ℕ → ℚ × Bool)
    (hknown : ∀ d ∈ donors, ∃ cd, indian_cities.lookup (strToLower d.city) = some cd ∧
      distFn (bbResolveCoords city).1 (bbResolveCoords city).2 cd.lat cd.lon ≤ radiusKm) :
    find_compatible_donors donors bt city radiusKm distFn rng1 =
      find_compatible_donors donors bt city radiusKm distFn rng2 := by
  unfold find_compatible_donors
  dsimp only
  rw [regionalTier_rng_independent rng1 rng2 donors hknown]

/-- Witness for C9 (amended): a donor in Mumbai within a 2000 km radius
of Delhi — the result list is independent of two arbitrary distinct
random streams. -/
theorem C9_witness :
    find_compatible_donors [c9Donor] "O+" "Delhi" 2000 (fun _ _ _ _ => 1200)
        (fun _ => (7, true)) =
      find_compatible_donors [c9Donor] "O+" "Delhi" 2000 (fun _ _ _ _ => 1200)
        (fun _ => (3, false)) :=
  C9_amended_deterministic_without_draws [c9Donor] "O+" "Delhi" 2000 (fun _ _ _ _ => 1200)
    (fun _ => (7, true)) (fun _ => (3, false))
    (by
      intro d hd
      have hd' : d = c9Donor := by simpa using hd
      subst hd'
      exact ⟨⟨"Maharashtra", 19.0760, 72.8777⟩, by decide, by decide⟩)

/-- A provider record without a stored quality score, used to exhibit
the C10 mutation. -/
def c10Doctor : Doctor :=
  ⟨"doctor_1", "cardiology", "hospital_0_0", 4, 20, 90, 500, none⟩

/-- C10 fails on `get_doctor_recommendations`: the Python loop
`for doctor in doctors: doctor['quality_score'] = quality_score` runs
over references into the shared `self.doctors` collection (unlike the
other operations, which `.copy()` before annotating), so after the call
the stored record of every provider matching the specialty filter has
gained a `quality_score` key: the collection is not left unchanged.
Here the single stored cardiology record changes from having no
`quality_score` to carrying 1.98. -/
theorem C10_doctor_mutation_bug :
    c10Doctor.quality_score = none ∧
      (get_doctor_recommendations [c10Doctor] "cardiology" none).2 ≠ [c10Doctor] ∧
      (get_doctor_recommendations [c10Doctor] "cardiology" none).2 =
        [{ c10Doctor with quality_score := some 1.98 }] ∧
      (get_doctor_recommendations [c10Doctor] "cardiology" none).1 =
        [{ c10Doctor with quality_score := some 1.98 }] := by
  refine ⟨rfl, ?_, by decide, by decide⟩
  decide

end HealthAI
